import Mathlib

/-!
# Bus ticket system — verification of the booking transaction engine

Shallow embedding of the repository `busticketsystem_database`
(`src/backend/database_manager.py`, `src/backend/app.py`,
`src/backend/utils.py`, `src/backend/config.py`).

The Python layer delegates the transactional core to SQL stored procedures
(`sp_PurchaseTicket`, `sp_CancelTicket`, `sp_ValidateCoupon`,
`sp_AddUserCredit`) whose bodies are not part of the repository snapshot;
those are modelled here from the specification (spec §4.2–§4.5), each marked
`Modelled from the spec:` in its doc comment.  Everything else is translated
directly from the Python source.

Conventions of the embedding:
* database identifiers (`UserID`, `TripID`, `TicketID`) are `Nat`, with `0`
  playing the role of Python's falsy `None`/`0`;
* money amounts in the engine model are exact rationals (`ℚ`), as the spec
  demands for the ledger (the Python layer's use of binary floating point
  is modelled separately, see `pythonFloatRepresentable`);
* bus seats of a bus with `totalSeats` seats are the identifiers
  `0, …, totalSeats - 1`;
* time (departure date, "today") is an abstract `Nat` clock measured in
  hours, so the 1-hour cancellation cutoff of `config.py` is the constant 1;
* the storage layer either works (`StorageBehavior.ok`) or raises with a
  given message (`StorageBehavior.fail e`), mirroring the `try/except
  pyodbc.Error` structure of `database_manager.py`.
-/

set_option maxHeartbeats 1000000

/-- Status of a trip (`Trips.Status` column: Active / Completed / Cancelled). -/
inductive TripStatus
  | active
  | completed
  | cancelled
deriving DecidableEq

/-- Status of a ticket (`Tickets.Status` column: Active / Completed / Cancelled). -/
inductive TicketStatus
  | active
  | completed
  | cancelled
deriving DecidableEq

/-- Payment type recorded on a `Payments` row. -/
inductive PaymentType
  | purchase
  | refund
  | topup
deriving DecidableEq

/-- One scheduled trip (row of `Trips` joined with its bus's `TotalSeats`). -/
structure Trip where
  busTotalSeats : Nat
  price : ℚ
  status : TripStatus
  departure : Nat
deriving DecidableEq

/-- One purchase transaction (row of `Tickets` with its `TicketSeats` rows). -/
structure Ticket where
  userId : Nat
  tripId : Nat
  seats : List Nat
  passengers : List String
  totalPrice : ℚ
  discountAmount : ℚ
  finalPrice : ℚ
  status : TicketStatus
deriving DecidableEq

/-- One coupon (row of `Coupons`). -/
structure Coupon where
  discountRate : ℚ
  usageLimit : Nat
  timesUsed : Nat
  expiry : Nat
  isActive : Bool
deriving DecidableEq

/-- One immutable ledger entry (row of `Payments`). -/
structure Payment where
  userId : Nat
  amount : ℚ
  ptype : PaymentType
  ticketId : Option Nat
deriving DecidableEq

/-- The durable store (Ledger Store of spec §2): users' credit balances,
trips, tickets, coupons, per-user coupon grants (`UserCoupons` table) and
the append-only payment ledger.  Association lists play the role of tables
keyed by identifier. -/
structure DBState where
  balances : List (Nat × ℚ)
  trips : List (Nat × Trip)
  tickets : List (Nat × Ticket)
  coupons : List (String × Coupon)
  userCoupons : List (Nat × String × Bool)
  payments : List Payment
  nextTicketId : Nat
deriving DecidableEq

/-- Credit balance of a user; users without a row have balance 0
(`Users.CreditBalance` defaults to 0 on registration). -/
def getBal : List (Nat × ℚ) → Nat → ℚ
  | [], _ => 0
  | p :: rest, u => if p.1 = u then p.2 else getBal rest u

/-- Overwrite a user's balance row. -/
def setBal (l : List (Nat × ℚ)) (u : Nat) (v : ℚ) : List (Nat × ℚ) :=
  (u, v) :: l.filter (fun p => p.1 ≠ u)

/-- First trip row with the given id. -/
def lookupTrip : List (Nat × Trip) → Nat → Option Trip
  | [], _ => none
  | p :: rest, t => if p.1 = t then some p.2 else lookupTrip rest t

/-- First ticket row with the given id. -/
def lookupTicket : List (Nat × Ticket) → Nat → Option Ticket
  | [], _ => none
  | p :: rest, t => if p.1 = t then some p.2 else lookupTicket rest t

/-- First coupon row with the given code. -/
def lookupCoupon : List (String × Coupon) → String → Option Coupon
  | [], _ => none
  | p :: rest, c => if p.1 = c then some p.2 else lookupCoupon rest c

/-- The `used` flag of the grant of coupon `code` to user `u`
(`UserCoupons` row), if such a grant exists. -/
def findGrant : List (Nat × String × Bool) → Nat → String → Option Bool
  | [], _, _ => none
  | g :: rest, u, code =>
    if g.1 = u ∧ g.2.1 = code then some g.2.2 else findGrant rest u code

/-- Seats of trip `t` currently held by non-cancelled tickets, in ticket
order.  Spec §3: seat availability is *derived* — a seat is free iff no
non-cancelled ticket of the trip holds it. -/
def heldSeats : List (Nat × Ticket) → Nat → List Nat
  | [], _ => []
  | p :: rest, t =>
    if p.2.tripId = t ∧ p.2.status ≠ TicketStatus.cancelled then
      p.2.seats ++ heldSeats rest t
    else heldSeats rest t

/-- Set the status of every ticket row with the given id. -/
def setTicketStatus : List (Nat × Ticket) → Nat → TicketStatus → List (Nat × Ticket)
  | [], _, _ => []
  | p :: rest, t, s =>
    (if p.1 = t then (p.1, { p.2 with status := s }) else p) :: setTicketStatus rest t s

/-- `config.py`: `MAX_SEATS_PER_BOOKING = 5`. -/
def Config.MAX_SEATS_PER_BOOKING : Nat := 5

/-- `config.py`: `TICKET_CANCELLATION_HOURS_BEFORE = 1` (hours before
departure up to which a ticket can be cancelled). -/
def Config.TICKET_CANCELLATION_HOURS_BEFORE : Nat := 1

/-- Modelled from the spec: the body of the stored procedure
`sp_ValidateCoupon` is not in the repository; spec §4.2 fixes the checks
and their order — coupon exists and `IsActive`; `ExpiryDate ≥ today`; a
grant for this user exists and is unused; `usage_count < usage_limit`.
Returns `(valid, discountRate, message)`. -/
def sp_ValidateCoupon (st : DBState) (code : String) (userId : Nat) (today : Nat) :
    Bool × ℚ × String :=
  match lookupCoupon st.coupons code with
  | none => (false, 0, "Kupon bulunamadı")
  | some c =>
    if c.isActive = false then (false, 0, "Kupon aktif değil")
    else if c.expiry < today then (false, 0, "Kupon süresi dolmuş")
    else
      match findGrant st.userCoupons userId code with
      | none => (false, 0, "Kupon bu kullanıcıya tanımlı değil")
      | some used =>
        if used then (false, 0, "Kupon zaten kullanılmış")
        else if c.usageLimit ≤ c.timesUsed then (false, 0, "Kupon kullanım limiti dolmuş")
        else (true, c.discountRate, "Kupon geçerli")

/-- Modelled from the spec: `Coupon.Redeem` (spec §4.2), performed inside
the purchase transaction — flip the grant's `used` flag and increment the
coupon's usage count. -/
def redeemCoupon (st : DBState) (code : String) (userId : Nat) : DBState :=
  { st with
    coupons := st.coupons.map fun p =>
      if p.1 = code then (p.1, { p.2 with timesUsed := p.2.timesUsed + 1 }) else p
    userCoupons := st.userCoupons.map fun g =>
      if g.1 = userId ∧ g.2.1 = code then (g.1, g.2.1, true) else g }

/-- Modelled from the spec: the validation / pricing / reservation phase of
the stored procedure `sp_PurchaseTicket` (spec §4.4 steps 1–5), which is
not in the repository.  On success it returns the trip together with
`(subtotal, discount, final)`; on failure, the rejection message.  Seat
reservation (step 5) checks that the requested seats form a set, belong to
the trip's bus, and that none is held by a non-cancelled ticket. -/
def couponResult (st : DBState) (couponCode : String) (userId : Nat) (now : Nat) :
    Bool × ℚ × String :=
  if couponCode = "" then (true, (0 : ℚ), "")
  else sp_ValidateCoupon st couponCode userId now

/-- Spec §4.4 step 2: `subtotal = unitPrice × seatCount`. -/
def subtotalOf (trip : Trip) (seatIds : List Nat) : ℚ :=
  trip.price * seatIds.length

/-- Spec §4.4 step 4: `discount = subtotal × discountRate`, clamped to at
most the subtotal. -/
def discountOf (st : DBState) (trip : Trip) (seatIds : List Nat)
    (couponCode : String) (userId : Nat) (now : Nat) : ℚ :=
  min (subtotalOf trip seatIds * (couponResult st couponCode userId now).2.1)
    (subtotalOf trip seatIds)

def purchaseChecks (st : DBState) (userId tripId : Nat) (seatIds : List Nat)
    (names : List String) (couponCode : String) (now : Nat) :
    Except String (Trip × ℚ × ℚ × ℚ) :=
  match lookupTrip st.trips tripId with
  | none => .error "Sefer bulunamadı"
  | some trip =>
    if trip.status ≠ TripStatus.active then .error "Sefer aktif değil"
    else if trip.departure < now then .error "Sefer tarihi geçmiş"
    else if seatIds.length ≠ names.length then .error "Koltuk ve yolcu sayısı eşleşmiyor"
    else if seatIds.length = 0 then .error "Koltuk seçilmedi"
    else if Config.MAX_SEATS_PER_BOOKING < seatIds.length then .error "Koltuk limiti aşıldı"
    else if (couponResult st couponCode userId now).1 = false then
      .error (couponResult st couponCode userId now).2.2
    else if ¬ seatIds.Nodup then .error "Koltuk listesi hatalı"
    else if ¬ (∀ s ∈ seatIds, s < trip.busTotalSeats) then .error "Geçersiz koltuk"
    else if ∃ s ∈ seatIds, s ∈ heldSeats st.tickets tripId then .error "Koltuklar dolu"
    else .ok (trip, subtotalOf trip seatIds,
      discountOf st trip seatIds couponCode userId now,
      subtotalOf trip seatIds - discountOf st trip seatIds couponCode userId now)

/-- Modelled from the spec: the stored procedure `sp_PurchaseTicket`
(spec §4.4), not in the repository.  After the checks of
`purchaseChecks`, verify affordability (step 6) and commit atomically
(step 7): debit the ledger, create the Active ticket with its seat rows,
append the `Payment(Purchase)` row and redeem the coupon if one was used.
Every failure leaves the state untouched.  Returns
`(state', (Success, Message, TicketID))` — the row shape read back by
`DatabaseManager.purchase_ticket`. -/
def commitPurchase (st : DBState) (userId tripId : Nat) (seatIds : List Nat)
    (names : List String) (subtotal discount final : ℚ) : DBState :=
  { st with
    tickets := st.tickets ++
      [(st.nextTicketId,
        ⟨userId, tripId, seatIds, names, subtotal, discount, final, TicketStatus.active⟩)]
    nextTicketId := st.nextTicketId + 1
    balances := setBal st.balances userId (getBal st.balances userId - final)
    payments := st.payments ++ [⟨userId, final, PaymentType.purchase, some st.nextTicketId⟩] }

def sp_PurchaseTicket (st : DBState) (userId tripId : Nat) (seatIds : List Nat)
    (names : List String) (couponCode : String) (now : Nat) :
    DBState × (Bool × String × Option Nat) :=
  match purchaseChecks st userId tripId seatIds names couponCode now with
  | .error m => (st, (false, m, none))
  | .ok (_, subtotal, discount, final) =>
    if getBal st.balances userId < final then (st, (false, "Yetersiz bakiye", none))
    else
      ((if couponCode = "" then commitPurchase st userId tripId seatIds names subtotal discount final
        else redeemCoupon (commitPurchase st userId tripId seatIds names subtotal discount final)
          couponCode userId),
       (true, "Bilet satın alındı", some st.nextTicketId))

/-- The amount the purchase would debit (`final = subtotal − discount`) if
its validation and reservation checks pass; `none` when they reject.
Spec §4.4 step 6 compares exactly this amount against the balance. -/
def finalPriceQuote (st : DBState) (userId tripId : Nat) (seatIds : List Nat)
    (names : List String) (couponCode : String) (now : Nat) : Option ℚ :=
  match purchaseChecks st userId tripId seatIds names couponCode now with
  | .error _ => none
  | .ok (_, _, _, final) => some final

/-- Modelled from the spec: the stored procedure `sp_CancelTicket`
(spec §4.5), not in the repository.  Verify ownership and Active status,
check the cancellation cutoff (departure − now ≥ 1 hour), then atomically
mark the ticket Cancelled (which releases its seats, availability being
derived), credit the full `FinalPrice` back and append the
`Payment(Refund)` row.  Coupon usage is not restored. -/
def sp_CancelTicket (st : DBState) (ticketId userId : Nat) (now : Nat) :
    DBState × (Bool × String) :=
  match lookupTicket st.tickets ticketId with
  | none => (st, (false, "Bilet bulunamadı"))
  | some tk =>
    if tk.userId ≠ userId then (st, (false, "Bilet size ait değil"))
    else if tk.status ≠ TicketStatus.active then (st, (false, "Bilet aktif değil"))
    else
      match lookupTrip st.trips tk.tripId with
      | none => (st, (false, "Sefer bulunamadı"))
      | some trip =>
        if trip.departure < now + Config.TICKET_CANCELLATION_HOURS_BEFORE then
          (st, (false, "İptal süresi geçmiş"))
        else
          ({ st with
             tickets := setTicketStatus st.tickets ticketId TicketStatus.cancelled
             balances := setBal st.balances userId (getBal st.balances userId + tk.finalPrice)
             payments := st.payments ++ [⟨userId, tk.finalPrice, PaymentType.refund, some ticketId⟩] },
           (true, "Bilet iptal edildi"))

/-- Modelled from the spec: the stored procedure `sp_AddUserCredit`
(spec §4.3 `Credit`), not in the repository.  The ledger rejects
non-positive amounts defensively; otherwise it increases the balance and
appends the `Payment(TopUp)` row in the same unit. -/
def sp_AddUserCredit (st : DBState) (userId : Nat) (amount : ℚ) :
    DBState × (Bool × String) :=
  if amount ≤ 0 then (st, (false, "Geçersiz miktar"))
  else
    ({ st with
       balances := setBal st.balances userId (getBal st.balances userId + amount)
       payments := st.payments ++ [⟨userId, amount, PaymentType.topup, none⟩] },
     (true, "Bakiye eklendi"))

/-- Outcome of the storage round-trip of one `DatabaseManager` call: either
the stored procedure runs, or `pyodbc` raises with message `e` (the
`except Exception as e` branches of `database_manager.py`). -/
inductive StorageBehavior
  | ok
  | fail (e : String)
deriving DecidableEq

/-- `DatabaseManager.purchase_ticket` (`database_manager.py` lines
572–639): reject falsy arguments with `"Eksik bilgi"` before touching
storage; on a storage exception roll back and return
`"Satın alma hatası: " + str(e)`; otherwise run `sp_PurchaseTicket`.
The Python `coupon_code or ''` is `Option.getD ""`. -/
def DatabaseManager.purchase_ticket (beh : StorageBehavior) (st : DBState)
    (user_id trip_id : Nat) (seat_ids : List Nat) (passenger_names : List String)
    (coupon_code : Option String) (now : Nat) : DBState × (Bool × String × Option Nat) :=
  if user_id = 0 ∨ trip_id = 0 ∨ seat_ids = [] ∨ passenger_names = [] then
    (st, (false, "Eksik bilgi", none))
  else
    match beh with
    | .fail e => (st, (false, "Satın alma hatası: " ++ e, none))
    | .ok => sp_PurchaseTicket st user_id trip_id seat_ids passenger_names
        (coupon_code.getD "") now

/-- `DatabaseManager.cancel_ticket` (`database_manager.py` lines 716–763):
reject falsy arguments, on a storage exception roll back and return
`"İptal hatası: " + str(e)`, otherwise run `sp_CancelTicket`. -/
def DatabaseManager.cancel_ticket (beh : StorageBehavior) (st : DBState)
    (ticket_id user_id : Nat) (now : Nat) : DBState × (Bool × String) :=
  if ticket_id = 0 ∨ user_id = 0 then (st, (false, "Eksik bilgi"))
  else
    match beh with
    | .fail e => (st, (false, "İptal hatası: " ++ e))
    | .ok => sp_CancelTicket st ticket_id user_id now

/-- `DatabaseManager.add_user_credit` (`database_manager.py` lines
889–931): reject falsy arguments (`0` is falsy in Python, so amount `0` is
rejected here), on a storage exception roll back and return an error,
otherwise run `sp_AddUserCredit`. -/
def DatabaseManager.add_user_credit (beh : StorageBehavior) (st : DBState)
    (user_id : Nat) (amount : ℚ) : DBState × (Bool × String) :=
  if user_id = 0 ∨ amount = 0 then (st, (false, "Eksik bilgi"))
  else
    match beh with
    | .fail e => (st, (false, "Hata: " ++ e))
    | .ok => sp_AddUserCredit st user_id amount

/-- `DatabaseManager.validate_coupon` (`database_manager.py` lines
769–806): reject falsy arguments with `(False, 0, "Eksik bilgi")` — in
particular an empty coupon code — otherwise run the read-only
`sp_ValidateCoupon`. -/
def DatabaseManager.validate_coupon (st : DBState) (coupon_code : String)
    (user_id : Nat) (today : Nat) : Bool × ℚ × String :=
  if coupon_code = "" ∨ user_id = 0 then (false, 0, "Eksik bilgi")
  else sp_ValidateCoupon st coupon_code user_id today

/-- HTTP-level reply of a route handler: status code, success flag,
message. -/
structure RouteResponse where
  status : Nat
  success : Bool
  message : String
deriving DecidableEq

/-- The `/api/tickets/purchase` route handler (`app.py` lines 508–607):
session check, then shape validation — seat list non-empty, passenger list
non-empty, equal lengths, at most 5 seats — each rejected with HTTP 400
before `db.purchase_ticket` is called; afterwards the database result is
mapped to HTTP 200 / 400. -/
def purchase_ticket_route (beh : StorageBehavior) (st : DBState) (userType : String)
    (user_id trip_id : Nat) (seat_ids : List Nat) (passenger_names : List String)
    (coupon_code : Option String) (now : Nat) : DBState × RouteResponse :=
  if userType ≠ "user" then (st, ⟨403, false, "Sadece kullanıcılar bilet alabilir"⟩)
  else if trip_id = 0 then (st, ⟨400, false, "Sefer seçilmedi"⟩)
  else if seat_ids = [] then (st, ⟨400, false, "Koltuk seçilmedi"⟩)
  else if passenger_names = [] then (st, ⟨400, false, "Yolcu adı gerekli"⟩)
  else if seat_ids.length ≠ passenger_names.length then
    (st, ⟨400, false, "Koltuk ve yolcu sayısı eşleşmiyor"⟩)
  else if 5 < seat_ids.length then
    (st, ⟨400, false, "Tek seferde en fazla 5 koltuk alınabilir"⟩)
  else
    let r := DatabaseManager.purchase_ticket beh st user_id trip_id seat_ids
      passenger_names coupon_code now
    if r.2.1 then (r.1, ⟨200, true, r.2.2.1⟩) else (r.1, ⟨400, false, r.2.2.1⟩)

/-- `utils.hash_password` (`utils.py` lines 17–40): empty (falsy) password
hashes to `""`, otherwise the SHA-256 hex digest of the password.  The
digest function itself is `hashlib.sha256(...).hexdigest()`, an external
library, taken here as a parameter. -/
def hash_password (sha256hex : String → String) (password : String) : String :=
  if password = "" then "" else sha256hex password

/-- `utils.verify_password` (`utils.py` lines 43–58): `False` when either
argument is falsy, otherwise string equality of the stored hash with the
hash of the provided password. -/
def verify_password (sha256hex : String → String)
    (stored_hash provided_password : String) : Bool :=
  if stored_hash = "" ∨ provided_password = "" then false
  else stored_hash == hash_password sha256hex provided_password

/-- A rational is dyadic when some power of 2 clears its denominator. -/
def IsDyadicRational (q : ℚ) : Prop :=
  ∃ (m : ℤ) (e : Nat), q * 2 ^ e = (m : ℚ)

/-- The values a money amount can take in the Python layer.  `app.py`
(`add_credit`, line 839) runs `amount = float(amount)` and
`database_manager.py` (line 941) returns `float(result['CreditBalance'])`:
amounts are CPython `float`s, i.e. IEEE-754 binary64 — a finite value is
`m · 2^k` with `|m| ≤ 2^53` and integer exponent `k`. -/
def pythonFloatRepresentable (q : ℚ) : Prop :=
  ∃ (m k : ℤ), m.natAbs ≤ 2 ^ 53 ∧ q = (m : ℚ) * (2 : ℚ) ^ k

/-! ## State invariant

The data-model invariants of spec §3 that the claims rely on: balances are
non-negative, ticket identifiers are unique and below the id counter,
ticket prices are non-negative, trip identifiers are unique, and for each
trip the held seats (derived from non-cancelled tickets) are pairwise
distinct and belong to the trip's bus. -/

/-- Invariants of the ledger store (spec §3, invariants 1–3). -/
def DBInv (st : DBState) : Prop :=
  (∀ p ∈ st.balances, 0 ≤ p.2) ∧
  (st.tickets.map Prod.fst).Nodup ∧
  (∀ p ∈ st.tickets, p.1 < st.nextTicketId) ∧
  (∀ p ∈ st.tickets, 0 ≤ p.2.finalPrice) ∧
  (st.trips.map Prod.fst).Nodup ∧
  (∀ q ∈ st.trips, (heldSeats st.tickets q.1).Nodup ∧
     ∀ s ∈ heldSeats st.tickets q.1, s < q.2.busTotalSeats)

instance (st : DBState) : Decidable (DBInv st) := by
  unfold DBInv; infer_instance

/-! ## Helper lemmas about the association-list store -/

lemma getBal_nonneg {l : List (Nat × ℚ)} (h : ∀ p ∈ l, 0 ≤ p.2) (u : Nat) :
    0 ≤ getBal l u := by
  induction l with
  | nil => simp [getBal]
  | cons p rest ih =>
    simp only [getBal]
    split
    · exact h p (List.mem_cons_self p rest)
    · exact ih fun q hq => h q (List.mem_cons_of_mem p hq)

lemma mem_setBal {l : List (Nat × ℚ)} {u : Nat} {v : ℚ} {p : Nat × ℚ}
    (h : p ∈ setBal l u v) : p = (u, v) ∨ p ∈ l := by
  rcases List.mem_cons.1 h with h | h
  · exact Or.inl h
  · exact Or.inr (List.mem_of_mem_filter h)

lemma getBal_setBal_self (l : List (Nat × ℚ)) (u : Nat) (v : ℚ) :
    getBal (setBal l u v) u = v := by
  simp [setBal, getBal]

lemma lookupTicket_mem {l : List (Nat × Ticket)} {k : Nat} {tk : Ticket}
    (h : lookupTicket l k = some tk) : (k, tk) ∈ l := by
  induction l with
  | nil => simp [lookupTicket] at h
  | cons p rest ih =>
    simp only [lookupTicket] at h
    split at h
    · rename_i he
      cases h; cases p
      simp_all
    · exact List.mem_cons_of_mem p (ih h)

lemma lookupTrip_mem {l : List (Nat × Trip)} {k : Nat} {tr : Trip}
    (h : lookupTrip l k = some tr) : (k, tr) ∈ l := by
  induction l with
  | nil => simp [lookupTrip] at h
  | cons p rest ih =>
    simp only [lookupTrip] at h
    split at h
    · rename_i he
      cases h; cases p
      simp_all
    · exact List.mem_cons_of_mem p (ih h)

lemma lookupTrip_of_mem_nodup {l : List (Nat × Trip)} {k : Nat} {tr : Trip}
    (hn : (l.map Prod.fst).Nodup) (hm : (k, tr) ∈ l) : lookupTrip l k = some tr := by
  induction l with
  | nil => simp at hm
  | cons p rest ih =>
    simp only [List.map_cons, List.nodup_cons] at hn
    rcases List.mem_cons.1 hm with h | h
    · cases h
      simp [lookupTrip]
    · have hk : p.1 ≠ k := by
        intro he
        exact hn.1 (he ▸ (List.mem_map.2 ⟨(k, tr), h, rfl⟩))
      simp only [lookupTrip, if_neg hk]
      exact ih hn.2 h

lemma lookupTicket_none_of_lt {l : List (Nat × Ticket)} {k : Nat}
    (h : ∀ p ∈ l, p.1 < k) : lookupTicket l k = none := by
  induction l with
  | nil => rfl
  | cons p rest ih =>
    have hp := h p (List.mem_cons_self p rest)
    simp only [lookupTicket, if_neg (Nat.ne_of_lt hp)]
    exact ih fun q hq => h q (List.mem_cons_of_mem p hq)

lemma lookupTicket_append_of_none {l₁ l₂ : List (Nat × Ticket)} {k : Nat}
    (h : lookupTicket l₁ k = none) :
    lookupTicket (l₁ ++ l₂) k = lookupTicket l₂ k := by
  induction l₁ with
  | nil => rfl
  | cons p rest ih =>
    simp only [lookupTicket] at h ⊢
    split at h
    · exact absurd h (by simp)
    · rename_i hne
      rw [if_neg hne, List.append_eq]
      exact ih h

lemma heldSeats_append (l₁ l₂ : List (Nat × Ticket)) (t : Nat) :
    heldSeats (l₁ ++ l₂) t = heldSeats l₁ t ++ heldSeats l₂ t := by
  induction l₁ with
  | nil => simp [heldSeats]
  | cons p rest ih =>
    simp only [List.cons_append, heldSeats, List.append_eq]
    split
    · rw [ih, List.append_assoc]
    · exact ih

lemma heldSeats_single (k : Nat) (tk : Ticket) (t : Nat) :
    heldSeats [(k, tk)] t =
      if tk.tripId = t ∧ tk.status ≠ TicketStatus.cancelled then tk.seats else [] := by
  simp only [heldSeats]
  split <;> simp

lemma setTicketStatus_of_not_mem {l : List (Nat × Ticket)} {k : Nat} {s : TicketStatus}
    (h : ∀ p ∈ l, p.1 ≠ k) : setTicketStatus l k s = l := by
  induction l with
  | nil => rfl
  | cons p rest ih =>
    simp only [setTicketStatus, if_neg (h p (List.mem_cons_self p rest))]
    rw [ih fun q hq => h q (List.mem_cons_of_mem p hq)]

lemma map_fst_setTicketStatus (l : List (Nat × Ticket)) (k : Nat) (s : TicketStatus) :
    (setTicketStatus l k s).map Prod.fst = l.map Prod.fst := by
  induction l with
  | nil => rfl
  | cons p rest ih =>
    simp only [setTicketStatus, List.map_cons, ih]
    split <;> simp

lemma mem_setTicketStatus {l : List (Nat × Ticket)} {k : Nat} {s : TicketStatus}
    {p : Nat × Ticket} (h : p ∈ setTicketStatus l k s) :
    ∃ q ∈ l, p.1 = q.1 ∧ (p.2 = q.2 ∨ p.2 = { q.2 with status := s }) := by
  induction l with
  | nil => simp [setTicketStatus] at h
  | cons q rest ih =>
    simp only [setTicketStatus, List.mem_cons] at h
    rcases h with h | h
    · split at h
      · exact ⟨q, List.mem_cons_self q rest, by cases h; simp⟩
      · exact ⟨q, List.mem_cons_self q rest, by cases h; simp⟩
    · obtain ⟨q', hq', h1, h2⟩ := ih h
      exact ⟨q', List.mem_cons_of_mem q hq', h1, h2⟩

lemma heldSeats_setTicketStatus_cancelled (l : List (Nat × Ticket)) (k : Nat) (t : Nat) :
    List.Sublist (heldSeats (setTicketStatus l k TicketStatus.cancelled) t) (heldSeats l t) := by
  induction l with
  | nil => simp [setTicketStatus, heldSeats]
  | cons p rest ih =>
    simp only [setTicketStatus, heldSeats]
    split
    · rename_i hk
      split
      · rename_i hcond
        exact absurd hcond (by simp)
      · split
        · rename_i hcond2
          exact ih.trans (List.sublist_append_right _ _)
        · exact ih
    · split
      · exact ih.append_left _
      · exact ih

/-! ## Inversion lemmas for the purchase path -/

lemma purchaseChecks_ok_facts {st : DBState} {u t : Nat} {s : List Nat} {n : List String}
    {c : String} {now : Nat} {trip : Trip} {sub disc fin : ℚ}
    (h : purchaseChecks st u t s n c now = .ok (trip, sub, disc, fin)) :
    lookupTrip st.trips t = some trip ∧
    s.Nodup ∧ s ≠ [] ∧
    (∀ x ∈ s, x < trip.busTotalSeats) ∧
    (∀ x ∈ s, x ∉ heldSeats st.tickets t) ∧
    disc ≤ sub ∧ fin = sub - disc := by
  unfold purchaseChecks at h
  rcases hl : lookupTrip st.trips t with _ | trip'
  · rw [hl] at h
    exact absurd h (by simp)
  · rw [hl] at h
    simp only [] at h
    split_ifs at h with h1 h2 h3 h4 h5 h6 h7 h8 h9
    simp only [Except.ok.injEq, Prod.mk.injEq] at h
    obtain ⟨he, hsub, hdisc, hfin⟩ := h
    subst he
    refine ⟨rfl, h7, ?_, h8, ?_, ?_, ?_⟩
    · intro hnil
      exact h4 (by simp [hnil])
    · intro x hx hmem
      exact h9 ⟨x, hx, hmem⟩
    · rw [← hsub, ← hdisc]
      exact min_le_right _ _
    · rw [← hfin, hsub, hdisc]

lemma redeemCoupon_tickets (st : DBState) (c : String) (u : Nat) :
    (redeemCoupon st c u).tickets = st.tickets := rfl

lemma redeemCoupon_balances (st : DBState) (c : String) (u : Nat) :
    (redeemCoupon st c u).balances = st.balances := rfl

lemma redeemCoupon_trips (st : DBState) (c : String) (u : Nat) :
    (redeemCoupon st c u).trips = st.trips := rfl

lemma redeemCoupon_nextTicketId (st : DBState) (c : String) (u : Nat) :
    (redeemCoupon st c u).nextTicketId = st.nextTicketId := rfl

lemma sp_purchase_success {st : DBState} {u t : Nat} {s : List Nat} {n : List String}
    {c : String} {now : Nat} {st' : DBState} {msg : String} {otid : Option Nat}
    (h : sp_PurchaseTicket st u t s n c now = (st', (true, msg, otid))) :
    ∃ trip sub disc fin,
      purchaseChecks st u t s n c now = .ok (trip, sub, disc, fin) ∧
      fin ≤ getBal st.balances u ∧
      otid = some st.nextTicketId ∧
      st'.tickets = st.tickets ++
        [(st.nextTicketId, ⟨u, t, s, n, sub, disc, fin, TicketStatus.active⟩)] ∧
      st'.balances = setBal st.balances u (getBal st.balances u - fin) ∧
      st'.nextTicketId = st.nextTicketId + 1 ∧
      st'.trips = st.trips := by
  unfold sp_PurchaseTicket at h
  rcases hc : purchaseChecks st u t s n c now with m | ⟨trip, sub, disc, fin⟩
  · rw [hc] at h
    simp at h
  · rw [hc] at h
    simp only [] at h
    split_ifs at h with hb hce
    · simp at h
    · simp only [Prod.mk.injEq] at h
      obtain ⟨hst, -, -, hotid⟩ := h
      refine ⟨trip, sub, disc, fin, rfl, le_of_not_lt hb, hotid.symm, ?_, ?_, ?_, ?_⟩ <;>
        rw [← hst] <;> simp [commitPurchase]
    · simp only [Prod.mk.injEq] at h
      obtain ⟨hst, -, -, hotid⟩ := h
      refine ⟨trip, sub, disc, fin, rfl, le_of_not_lt hb, hotid.symm, ?_, ?_, ?_, ?_⟩ <;>
        rw [← hst] <;> simp [redeemCoupon, commitPurchase]

lemma sp_purchase_cases (st : DBState) (u t : Nat) (s : List Nat) (n : List String)
    (c : String) (now : Nat) :
    (sp_PurchaseTicket st u t s n c now).1 = st ∨
      (sp_PurchaseTicket st u t s n c now).2.1 = true := by
  unfold sp_PurchaseTicket
  rcases purchaseChecks st u t s n c now with m | ⟨trip, sub, disc, fin⟩
  · exact Or.inl rfl
  · simp only []
    split_ifs with hb
    · exact Or.inl rfl
    · exact Or.inr rfl
    · exact Or.inr rfl

lemma sp_purchase_failure {st : DBState} {u t : Nat} {s : List Nat} {n : List String}
    {c : String} {now : Nat}
    (h : (sp_PurchaseTicket st u t s n c now).2.1 = false) :
    (sp_PurchaseTicket st u t s n c now).1 = st := by
  rcases sp_purchase_cases st u t s n c now with h1 | h1
  · exact h1
  · rw [h1] at h
    exact absurd h (by simp)

lemma sp_cancel_cases (st : DBState) (tid u now : Nat) :
    (sp_CancelTicket st tid u now).1 = st ∨
      (sp_CancelTicket st tid u now).2.1 = true := by
  unfold sp_CancelTicket
  rcases lookupTicket st.tickets tid with _ | tk
  · exact Or.inl rfl
  · simp only []
    split_ifs with h1 h2
    · exact Or.inl rfl
    · exact Or.inl rfl
    · rcases lookupTrip st.trips tk.tripId with _ | trip
      · exact Or.inl rfl
      · simp only []
        split_ifs with h3
        · exact Or.inl rfl
        · exact Or.inr rfl

lemma sp_cancel_failure {st : DBState} {tid u now : Nat}
    (h : (sp_CancelTicket st tid u now).2.1 = false) :
    (sp_CancelTicket st tid u now).1 = st := by
  rcases sp_cancel_cases st tid u now with h1 | h1
  · exact h1
  · rw [h1] at h
    exact absurd h (by simp)

lemma sp_cancel_success {st : DBState} {tid u now : Nat} {st' : DBState} {msg : String}
    (h : sp_CancelTicket st tid u now = (st', (true, msg))) :
    ∃ tk, lookupTicket st.tickets tid = some tk ∧ tk.userId = u ∧
      tk.status = TicketStatus.active ∧
      st'.tickets = setTicketStatus st.tickets tid TicketStatus.cancelled ∧
      st'.balances = setBal st.balances u (getBal st.balances u + tk.finalPrice) ∧
      st'.trips = st.trips ∧ st'.nextTicketId = st.nextTicketId := by
  unfold sp_CancelTicket at h
  rcases hk : lookupTicket st.tickets tid with _ | tk
  · rw [hk] at h
    simp at h
  · rw [hk] at h
    simp only [] at h
    split_ifs at h with h1 h2
    · simp at h
    · simp at h
    · rcases ht : lookupTrip st.trips tk.tripId with _ | trip
      · rw [ht] at h
        simp at h
      · rw [ht] at h
        simp only [] at h
        split_ifs at h with h3
        · simp at h
        · simp only [Prod.mk.injEq] at h
          obtain ⟨hst, -⟩ := h
          refine ⟨tk, rfl, not_not.1 (by simpa using h1), not_not.1 (by simpa using h2),
            ?_, ?_, ?_, ?_⟩ <;> rw [← hst]

lemma sp_topup_cases (st : DBState) (u : Nat) (a : ℚ) :
    (sp_AddUserCredit st u a).1 = st ∨ (sp_AddUserCredit st u a).2.1 = true := by
  unfold sp_AddUserCredit
  split_ifs with h1
  · exact Or.inl rfl
  · exact Or.inr rfl

lemma sp_topup_success {st : DBState} {u : Nat} {a : ℚ} {st' : DBState} {msg : String}
    (h : sp_AddUserCredit st u a = (st', (true, msg))) :
    0 < a ∧
      st'.tickets = st.tickets ∧
      st'.balances = setBal st.balances u (getBal st.balances u + a) ∧
      st'.trips = st.trips ∧ st'.nextTicketId = st.nextTicketId := by
  unfold sp_AddUserCredit at h
  split_ifs at h with h1
  · simp at h
  · simp only [Prod.mk.injEq] at h
    obtain ⟨hst, -⟩ := h
    exact ⟨lt_of_not_le h1, by rw [← hst], by rw [← hst], by rw [← hst], by rw [← hst]⟩

/-! ## Invariant preservation -/

lemma DBInv_sp_purchase {st : DBState} (h : DBInv st) (u t : Nat) (s : List Nat)
    (n : List String) (c : String) (now : Nat) :
    DBInv (sp_PurchaseTicket st u t s n c now).1 := by
  rcases he : sp_PurchaseTicket st u t s n c now with ⟨st', b, msg, otid⟩
  cases b with
  | false =>
    have h1 : (sp_PurchaseTicket st u t s n c now).1 = st :=
      sp_purchase_failure (by rw [he])
    rw [he] at h1
    have h1' : st' = st := h1
    show DBInv st'
    rw [h1']
    exact h
  | true =>
    obtain ⟨trip, sub, disc, fin, hc, hfin, hotid, hts, hbal, hnext, htrips⟩ :=
      sp_purchase_success he
    obtain ⟨hlk, hnd, hne, hbound, hnotheld, hdls, hfin_eq⟩ := purchaseChecks_ok_facts hc
    obtain ⟨hB, hTN, hTB, hFP, hPN, hHeld⟩ := h
    refine ⟨?_, ?_, ?_, ?_, ?_, ?_⟩
    · rw [hbal]
      intro p hp
      rcases mem_setBal hp with hpe | hpm
      · rw [hpe]
        exact sub_nonneg.2 hfin
      · exact hB p hpm
    · rw [hts, List.map_append]
      refine List.Nodup.append hTN (by simp) ?_
      intro a ha hb
      simp only [List.map_cons, List.map_nil, List.mem_cons, List.not_mem_nil, or_false] at hb
      obtain ⟨p, hp, hpa⟩ := List.mem_map.1 ha
      exact absurd (hpa ▸ hTB p hp) (by rw [hb]; exact lt_irrefl _)
    · rw [hts, hnext]
      intro p hp
      rcases List.mem_append.1 hp with hpm | hpm
      · exact Nat.lt_succ_of_lt (hTB p hpm)
      · simp only [List.mem_cons, List.not_mem_nil, or_false] at hpm
        rw [hpm]
        exact Nat.lt_succ_self _
    · rw [hts]
      intro p hp
      rcases List.mem_append.1 hp with hpm | hpm
      · exact hFP p hpm
      · simp only [List.mem_cons, List.not_mem_nil, or_false] at hpm
        rw [hpm, hfin_eq]
        exact sub_nonneg.2 hdls
    · rw [htrips]
      exact hPN
    · rw [htrips]
      intro q hq
      rw [hts, heldSeats_append, heldSeats_single]
      simp only [ne_eq, reduceCtorEq, not_false_eq_true, and_true]
      by_cases hqt : t = q.1
      · rw [if_pos hqt]
        have hq2 : q.2 = trip := by
          have hql := lookupTrip_of_mem_nodup hPN hq
          rw [← hqt, hlk] at hql
          exact (Option.some.injEq _ _ ▸ hql).symm
        subst hqt
        constructor
        · refine List.Nodup.append (hHeld q hq).1 hnd ?_
          intro a ha has
          exact hnotheld a has ha
        · intro x hx
          rcases List.mem_append.1 hx with hxm | hxm
          · exact (hHeld q hq).2 x hxm
          · rw [hq2]
            exact hbound x hxm
      · rw [if_neg hqt, List.append_nil]
        exact hHeld q hq

lemma DBInv_sp_cancel {st : DBState} (h : DBInv st) (tid u now : Nat) :
    DBInv (sp_CancelTicket st tid u now).1 := by
  rcases he : sp_CancelTicket st tid u now with ⟨st', b, msg⟩
  cases b with
  | false =>
    have h1 : (sp_CancelTicket st tid u now).1 = st := sp_cancel_failure (by rw [he])
    rw [he] at h1
    have h1' : st' = st := h1
    show DBInv st'
    rw [h1']
    exact h
  | true =>
    obtain ⟨tk, hk, -, -, hts, hbal, htrips, hnext⟩ := sp_cancel_success he
    obtain ⟨hB, hTN, hTB, hFP, hPN, hHeld⟩ := h
    have hfp : 0 ≤ tk.finalPrice := hFP (tid, tk) (lookupTicket_mem hk)
    refine ⟨?_, ?_, ?_, ?_, ?_, ?_⟩
    · rw [hbal]
      intro p hp
      rcases mem_setBal hp with hpe | hpm
      · rw [hpe]
        exact add_nonneg (getBal_nonneg hB u) hfp
      · exact hB p hpm
    · rw [hts, map_fst_setTicketStatus]
      exact hTN
    · rw [hts, hnext]
      intro p hp
      obtain ⟨q, hq, hq1, -⟩ := mem_setTicketStatus hp
      rw [hq1]
      exact hTB q hq
    · rw [hts]
      intro p hp
      obtain ⟨q, hq, -, hq2⟩ := mem_setTicketStatus hp
      rcases hq2 with hq2 | hq2 <;> rw [hq2]
      · exact hFP q hq
      · exact hFP q hq
    · rw [htrips]
      exact hPN
    · rw [htrips]
      intro q hq
      rw [hts]
      have hsub := heldSeats_setTicketStatus_cancelled st.tickets tid q.1
      exact ⟨(hHeld q hq).1.sublist hsub,
        fun x hx => (hHeld q hq).2 x (hsub.subset hx)⟩

lemma DBInv_sp_topup {st : DBState} (h : DBInv st) (u : Nat) (a : ℚ) :
    DBInv (sp_AddUserCredit st u a).1 := by
  rcases he : sp_AddUserCredit st u a with ⟨st', b, msg⟩
  cases b with
  | false =>
    have h1 : (sp_AddUserCredit st u a).1 = st := by
      rcases sp_topup_cases st u a with h1 | h1
      · exact h1
      · rw [he] at h1
        exact absurd h1 (by simp)
    rw [he] at h1
    have h1' : st' = st := h1
    show DBInv st'
    rw [h1']
    exact h
  | true =>
    obtain ⟨ha, hts, hbal, htrips, hnext⟩ := sp_topup_success he
    obtain ⟨hB, hTN, hTB, hFP, hPN, hHeld⟩ := h
    refine ⟨?_, ?_, ?_, ?_, ?_, ?_⟩
    · rw [hbal]
      intro p hp
      rcases mem_setBal hp with hpe | hpm
      · rw [hpe]
        exact add_nonneg (getBal_nonneg hB u) (le_of_lt ha)
      · exact hB p hpm
    · rw [hts]
      exact hTN
    · rw [hts, hnext]
      exact hTB
    · rw [hts]
      exact hFP
    · rw [htrips]
      exact hPN
    · rw [htrips]
      intro q hq
      rw [hts]
      exact hHeld q hq

/-! ## Wrapper-level lemmas -/

lemma purchase_wrapper_failure {beh : StorageBehavior} {st : DBState} {u t : Nat}
    {s : List Nat} {n : List String} {c : Option String} {now : Nat}
    (h : (DatabaseManager.purchase_ticket beh st u t s n c now).2.1 = false) :
    (DatabaseManager.purchase_ticket beh st u t s n c now).1 = st := by
  unfold DatabaseManager.purchase_ticket at h ⊢
  split_ifs at h ⊢ with hg
  · rfl
  · cases beh with
    | ok => exact sp_purchase_failure h
    | fail e => rfl

lemma purchase_wrapper_success {beh : StorageBehavior} {st : DBState} {u t : Nat}
    {s : List Nat} {n : List String} {c : Option String} {now : Nat}
    {st' : DBState} {msg : String} {otid : Option Nat}
    (h : DatabaseManager.purchase_ticket beh st u t s n c now = (st', (true, msg, otid))) :
    sp_PurchaseTicket st u t s n (c.getD "") now = (st', (true, msg, otid)) := by
  unfold DatabaseManager.purchase_ticket at h
  split_ifs at h with hg
  · simp at h
  · cases beh with
    | ok => exact h
    | fail e => simp at h

lemma cancel_wrapper_failure {beh : StorageBehavior} {st : DBState} {tid u now : Nat}
    (h : (DatabaseManager.cancel_ticket beh st tid u now).2.1 = false) :
    (DatabaseManager.cancel_ticket beh st tid u now).1 = st := by
  unfold DatabaseManager.cancel_ticket at h ⊢
  split_ifs at h ⊢ with hg
  · rfl
  · cases beh with
    | ok => exact sp_cancel_failure h
    | fail e => rfl

lemma cancel_wrapper_success {beh : StorageBehavior} {st : DBState} {tid u now : Nat}
    {st' : DBState} {msg : String}
    (h : DatabaseManager.cancel_ticket beh st tid u now = (st', (true, msg))) :
    sp_CancelTicket st tid u now = (st', (true, msg)) := by
  unfold DatabaseManager.cancel_ticket at h
  split_ifs at h with hg
  · simp at h
  · cases beh with
    | ok => exact h
    | fail e => simp at h

lemma DBInv_purchase_wrapper {st : DBState} (h : DBInv st) (beh : StorageBehavior)
    (u t : Nat) (s : List Nat) (n : List String) (c : Option String) (now : Nat) :
    DBInv (DatabaseManager.purchase_ticket beh st u t s n c now).1 := by
  unfold DatabaseManager.purchase_ticket
  split_ifs with hg
  · exact h
  · cases beh with
    | ok => exact DBInv_sp_purchase h u t s n (c.getD "") now
    | fail e => exact h

lemma DBInv_cancel_wrapper {st : DBState} (h : DBInv st) (beh : StorageBehavior)
    (tid u now : Nat) :
    DBInv (DatabaseManager.cancel_ticket beh st tid u now).1 := by
  unfold DatabaseManager.cancel_ticket
  split_ifs with hg
  · exact h
  · cases beh with
    | ok => exact DBInv_sp_cancel h tid u now
    | fail e => exact h

lemma DBInv_topup_wrapper {st : DBState} (h : DBInv st) (beh : StorageBehavior)
    (u : Nat) (a : ℚ) :
    DBInv (DatabaseManager.add_user_credit beh st u a).1 := by
  unfold DatabaseManager.add_user_credit
  split_ifs with hg
  · exact h
  · cases beh with
    | ok => exact DBInv_sp_topup h u a
    | fail e => exact h

/-! ## Operation sequences (spec §8, *balance never negative*) -/

/-- One operation of the booking engine as invoked through the
`DatabaseManager` layer, together with the behaviour of the storage
round-trip it encounters. -/
inductive Op where
  | purchase (beh : StorageBehavior) (userId tripId : Nat) (seats : List Nat)
      (names : List String) (coupon : Option String) (now : Nat)
  | cancel (beh : StorageBehavior) (ticketId userId now : Nat)
  | topup (beh : StorageBehavior) (userId : Nat) (amount : ℚ)

/-- The state after one operation (results are discarded). -/
def applyOp (st : DBState) : Op → DBState
  | .purchase beh u t s n c now => (DatabaseManager.purchase_ticket beh st u t s n c now).1
  | .cancel beh tid u now => (DatabaseManager.cancel_ticket beh st tid u now).1
  | .topup beh u a => (DatabaseManager.add_user_credit beh st u a).1

/-- The state after a sequence of operations. -/
def runOps : DBState → List Op → DBState
  | st, [] => st
  | st, op :: ops => runOps (applyOp st op) ops

lemma DBInv_applyOp {st : DBState} (h : DBInv st) (op : Op) : DBInv (applyOp st op) := by
  cases op with
  | purchase beh u t s n c now => exact DBInv_purchase_wrapper h beh u t s n c now
  | cancel beh tid u now => exact DBInv_cancel_wrapper h beh tid u now
  | topup beh u a => exact DBInv_topup_wrapper h beh u a

lemma DBInv_runOps {st : DBState} (h : DBInv st) (ops : List Op) :
    DBInv (runOps st ops) := by
  induction ops generalizing st with
  | nil => exact h
  | cons op ops ih => exact ih (DBInv_applyOp h op)

/-! ## Concurrent purchase model (spec §5, §8 *no double booking*)

Spec §5 requires a per-trip exclusive critical section around steps 5–7 of
`PurchaseTicket`, so any set of concurrent calls is equivalent to running
them in some serial order; `runPurchases` executes one such order. -/

/-- One `PurchaseTicket` request of a concurrent client. -/
structure PReq where
  beh : StorageBehavior
  userId : Nat
  tripId : Nat
  seats : List Nat
  names : List String
  coupon : Option String
  now : Nat

/-- One serialized request against the engine. -/
def purchaseStep (st : DBState) (r : PReq) : DBState × (Bool × String × Option Nat) :=
  DatabaseManager.purchase_ticket r.beh st r.userId r.tripId r.seats r.names r.coupon r.now

/-- Run the requests in order; the log records each request with its
accepted / rejected outcome. -/
def runPurchases : DBState → List PReq → DBState × List (PReq × Bool)
  | st, [] => (st, [])
  | st, r :: rs =>
    ((runPurchases (purchaseStep st r).1 rs).1,
     (r, (purchaseStep st r).2.1) :: (runPurchases (purchaseStep st r).1 rs).2)

/-- The seat sets of the accepted calls that targeted trip `t`, in order. -/
def acceptedSeatLists : List (PReq × Bool) → Nat → List (List Nat)
  | [], _ => []
  | e :: rest, t =>
    if e.2 = true ∧ e.1.tripId = t then e.1.seats :: acceptedSeatLists rest t
    else acceptedSeatLists rest t

lemma purchase_wrapper_held (beh : StorageBehavior) (st : DBState) (u t : Nat)
    (s : List Nat) (n : List String) (c : Option String) (now : Nat) (t' : Nat) :
    heldSeats (DatabaseManager.purchase_ticket beh st u t s n c now).1.tickets t' =
      heldSeats st.tickets t' ++
        (if (DatabaseManager.purchase_ticket beh st u t s n c now).2.1 = true ∧ t = t'
         then s else []) := by
  rcases he : DatabaseManager.purchase_ticket beh st u t s n c now with ⟨st', b, msg, otid⟩
  cases b with
  | false =>
    have h1 : (DatabaseManager.purchase_ticket beh st u t s n c now).1 = st :=
      purchase_wrapper_failure (by rw [he])
    rw [he] at h1
    have h1' : st' = st := h1
    simp [h1']
  | true =>
    have hs := purchase_wrapper_success he
    obtain ⟨trip, sub, disc, fin, -, -, -, hts, -, -, -⟩ := sp_purchase_success hs
    show heldSeats st'.tickets t' = _
    rw [hts, heldSeats_append, heldSeats_single]
    simp only [ne_eq, reduceCtorEq, not_false_eq_true, and_true, true_and]

lemma purchase_wrapper_trips (beh : StorageBehavior) (st : DBState) (u t : Nat)
    (s : List Nat) (n : List String) (c : Option String) (now : Nat) :
    (DatabaseManager.purchase_ticket beh st u t s n c now).1.trips = st.trips := by
  rcases he : DatabaseManager.purchase_ticket beh st u t s n c now with ⟨st', b, msg, otid⟩
  cases b with
  | false =>
    have h1 : (DatabaseManager.purchase_ticket beh st u t s n c now).1 = st :=
      purchase_wrapper_failure (by rw [he])
    rw [he] at h1
    have h1' : st' = st := h1
    simp [h1']
  | true =>
    have hs := purchase_wrapper_success he
    obtain ⟨trip, sub, disc, fin, -, -, -, -, -, -, htrips⟩ := sp_purchase_success hs
    exact htrips

lemma runPurchases_trips (rs : List PReq) (st : DBState) :
    (runPurchases st rs).1.trips = st.trips := by
  induction rs generalizing st with
  | nil => rfl
  | cons r rs ih =>
    simp only [runPurchases]
    rw [ih]
    exact purchase_wrapper_trips r.beh st r.userId r.tripId r.seats r.names r.coupon r.now

lemma DBInv_runPurchases {st : DBState} (h : DBInv st) (rs : List PReq) :
    DBInv (runPurchases st rs).1 := by
  induction rs generalizing st with
  | nil => exact h
  | cons r rs ih =>
    exact ih (DBInv_purchase_wrapper h r.beh r.userId r.tripId r.seats r.names r.coupon r.now)

lemma runPurchases_held (rs : List PReq) (st : DBState) (t : Nat) :
    heldSeats (runPurchases st rs).1.tickets t =
      heldSeats st.tickets t ++ (acceptedSeatLists (runPurchases st rs).2 t).flatten := by
  induction rs generalizing st with
  | nil => simp [runPurchases, acceptedSeatLists]
  | cons r rs ih =>
    simp only [runPurchases, acceptedSeatLists]
    rw [ih]
    have hstep : heldSeats (purchaseStep st r).1.tickets t =
        heldSeats st.tickets t ++
          (if (purchaseStep st r).2.1 = true ∧ r.tripId = t then r.seats else []) :=
      purchase_wrapper_held r.beh st r.userId r.tripId r.seats r.names r.coupon r.now t
    by_cases hP : (purchaseStep st r).2.1 = true ∧ r.tripId = t
    · rw [if_pos hP]
      show heldSeats (purchaseStep st r).1.tickets t ++ _ = _
      rw [hstep, if_pos hP, List.flatten_cons, List.append_assoc]
    · rw [if_neg hP]
      show heldSeats (purchaseStep st r).1.tickets t ++ _ = _
      rw [hstep, if_neg hP, List.append_nil]

lemma setTicketStatus_append (l₁ l₂ : List (Nat × Ticket)) (k : Nat) (s : TicketStatus) :
    setTicketStatus (l₁ ++ l₂) k s = setTicketStatus l₁ k s ++ setTicketStatus l₂ k s := by
  induction l₁ with
  | nil => rfl
  | cons p rest ih =>
    simp only [List.cons_append, setTicketStatus, List.append_eq, ih]

lemma length_le_of_nodup_bounded {l : List Nat} {k : Nat} (hn : l.Nodup)
    (hb : ∀ x ∈ l, x < k) : l.length ≤ k := by
  have h1 : l.toFinset ⊆ Finset.range k := fun x hx =>
    Finset.mem_range.2 (hb x (List.mem_toFinset.1 hx))
  have h2 := Finset.card_le_card h1
  rwa [List.toFinset_card_of_nodup hn, Finset.card_range] at h2

lemma insufficient_balance_rejected {st : DBState} {u t : Nat} {s : List Nat}
    {n : List String} {c : String} {now : Nat} {f : ℚ}
    (hq : finalPriceQuote st u t s n c now = some f)
    (hlt : getBal st.balances u < f) :
    sp_PurchaseTicket st u t s n c now = (st, (false, "Yetersiz bakiye", none)) := by
  unfold finalPriceQuote at hq
  unfold sp_PurchaseTicket
  rcases hc : purchaseChecks st u t s n c now with m | ⟨trip, sub, disc, fin⟩ <;>
    rw [hc] at hq
  · simp at hq
  · simp only [Option.some.injEq] at hq
    simp only []
    rw [if_pos (hq ▸ hlt)]

lemma pythonFloat_dyadic {q : ℚ} (h : pythonFloatRepresentable q) : IsDyadicRational q := by
  obtain ⟨m, k, -, hq⟩ := h
  rcases k with n | n
  · refine ⟨m * 2 ^ n, 0, ?_⟩
    rw [hq, Int.ofNat_eq_natCast, zpow_natCast]
    push_cast
    ring
  · refine ⟨m, n + 1, ?_⟩
    rw [hq, zpow_negSucc]
    have h2 : ((2 : ℚ) ^ (n + 1)) ≠ 0 := by positivity
    field_simp

lemma tenth_not_pythonFloat : ¬ pythonFloatRepresentable ((1 : ℚ)/10) := by
  intro h
  obtain ⟨m, e, hdy⟩ := pythonFloat_dyadic h
  have h10 : (2 : ℚ) ^ e = 10 * m := by
    field_simp at hdy
    linarith [hdy]
  have hz : (2 : ℤ) ^ e = 10 * m := by exact_mod_cast h10
  have h5 : (5 : ℤ) ∣ 2 ^ e := ⟨2 * m, by rw [hz]; ring⟩
  have hp5 : Prime (5 : ℤ) := by norm_num
  have h52 := hp5.dvd_of_dvd_pow h5
  norm_num at h52

/-! ## Demonstration states used by the concrete witnesses -/

/-- A trip with 2 seats, price 100, active, departing at hour 100. -/
def demoTrip : Trip := ⟨2, 100, TripStatus.active, 100⟩

/-- User 7 holds 150 credit; trip 1 is `demoTrip`; no tickets yet. -/
def demoDB : DBState := ⟨[(7, 150)], [(1, demoTrip)], [], [], [], [], 1⟩

/-- `demoDB` after user 7 buys seat 0 of trip 1 for 100. -/
def demoDB1 : DBState :=
  ⟨[(7, 50)], [(1, demoTrip)],
   [(1, ⟨7, 1, [0], ["Ana"], 100, 0, 100, TicketStatus.active⟩)],
   [], [], [⟨7, 100, PaymentType.purchase, some 1⟩], 2⟩

/-- `demoDB1` after that ticket is cancelled and refunded. -/
def demoDB2 : DBState :=
  ⟨[(7, 150)], [(1, demoTrip)],
   [(1, ⟨7, 1, [0], ["Ana"], 100, 0, 100, TicketStatus.cancelled⟩)],
   [], [],
   [⟨7, 100, PaymentType.purchase, some 1⟩, ⟨7, 100, PaymentType.refund, some 1⟩], 2⟩

/-- Like `demoDB` but user 7 holds only 10 credit. -/
def poorDB : DBState := ⟨[(7, 10)], [(1, demoTrip)], [], [], [], [], 1⟩

/-- A store with no rows at all. -/
def emptyDB : DBState := ⟨[], [], [], [], [], [], 1⟩

/-! ## Claims -/

/-- C1: whenever `DatabaseManager.purchase_ticket` returns an error result
(`success = false`), the state is completely unchanged — in particular no
ticket, no payment, no seat hold, no coupon-usage row exists for the
attempt, and the user's balance is untouched. -/
theorem purchase_error_atomicity (beh : StorageBehavior) (st : DBState)
    (u t : Nat) (s : List Nat) (n : List String) (c : Option String) (now : Nat)
    (h : (DatabaseManager.purchase_ticket beh st u t s n c now).2.1 = false) :
    (DatabaseManager.purchase_ticket beh st u t s n c now).1 = st ∧
    (DatabaseManager.purchase_ticket beh st u t s n c now).1.tickets = st.tickets ∧
    (DatabaseManager.purchase_ticket beh st u t s n c now).1.payments = st.payments ∧
    (DatabaseManager.purchase_ticket beh st u t s n c now).1.userCoupons = st.userCoupons ∧
    (DatabaseManager.purchase_ticket beh st u t s n c now).1.coupons = st.coupons ∧
    (∀ u', getBal (DatabaseManager.purchase_ticket beh st u t s n c now).1.balances u' =
      getBal st.balances u') ∧
    (∀ t', heldSeats (DatabaseManager.purchase_ticket beh st u t s n c now).1.tickets t' =
      heldSeats st.tickets t') := by
  have h1 := purchase_wrapper_failure h
  rw [h1]
  exact ⟨rfl, rfl, rfl, rfl, rfl, fun u' => rfl, fun t' => rfl⟩

/-- Concrete witness for C1: a purchase on an empty store fails (trip not
found) and leaves the store exactly as it was. -/
theorem purchase_error_atomicity_witness :
    (DatabaseManager.purchase_ticket .ok emptyDB 1 1 [0] ["Ali"] none 0).2.1 = false ∧
    (DatabaseManager.purchase_ticket .ok emptyDB 1 1 [0] ["Ali"] none 0).1 = emptyDB :=
  ⟨by decide, (purchase_error_atomicity .ok emptyDB 1 1 [0] ["Ali"] none 0 (by decide)).1⟩

/-- C10: with any falsy argument (`user_id = 0`, `trip_id = 0`, empty seat
list, or empty passenger list) `DatabaseManager.purchase_ticket` returns
`(False, "Eksik bilgi", None)` without any storage interaction, for every
storage behaviour, and the state is unchanged. -/
theorem purchase_falsy_guard (beh : StorageBehavior) (st : DBState)
    (u t : Nat) (s : List Nat) (n : List String) (c : Option String) (now : Nat)
    (h : u = 0 ∨ t = 0 ∨ s = [] ∨ n = []) :
    DatabaseManager.purchase_ticket beh st u t s n c now =
      (st, (false, "Eksik bilgi", none)) := by
  unfold DatabaseManager.purchase_ticket
  rw [if_pos h]

/-- Concrete witness for C10: `user_id = 0` is rejected as missing
information even when the storage layer would have failed. -/
theorem purchase_falsy_guard_witness :
    DatabaseManager.purchase_ticket (.fail "boom") demoDB 0 1 [0] ["Ali"] none 0 =
      (demoDB, (false, "Eksik bilgi", none)) :=
  purchase_falsy_guard (.fail "boom") demoDB 0 1 [0] ["Ali"] none 0 (Or.inl rfl)

/-- C6 counterexample: when no coupon code is supplied,
`DatabaseManager.validate_coupon` does *not* report valid — it reports
invalid (`False`), so the claim "reports valid with discount rate 0" fails
at the concrete no-coupon input. -/
theorem validate_coupon_no_code_not_valid :
    ¬ ((DatabaseManager.validate_coupon emptyDB "" 7 0).1 = true) := by
  decide

/-- C6 amended: when no coupon code is supplied,
`DatabaseManager.validate_coupon` reports invalid with discount rate 0 and
the dedicated message `"Eksik bilgi"` (missing information), for every
store, user and date. -/
theorem validate_coupon_no_code_reports_missing (st : DBState) (u : Nat) (today : Nat) :
    DatabaseManager.validate_coupon st "" u today = (false, 0, "Eksik bilgi") := by
  unfold DatabaseManager.validate_coupon
  rw [if_pos (Or.inl rfl)]

/-- C7 counterexample: on a storage-layer exception the error message
returned by `DatabaseManager.purchase_ticket` embeds the raw storage error
text verbatim, contradicting "never contains the raw storage-layer error
text". -/
theorem purchase_error_message_leaks_storage_text :
    (DatabaseManager.purchase_ticket (.fail "pyodbc: connection lost") demoDB
        1 1 [0] ["Ali"] none 0).2.2.1 =
      "Satın alma hatası: " ++ "pyodbc: connection lost" := by
  decide

/-- C7 amended: failing purchase and cancel calls do return a structured
result (success flag, message, payload) rather than raising, but on a
storage exception the message is the fixed prefix followed by the raw
storage error text. -/
theorem storage_error_message_structure (st : DBState) (u t : Nat) (s : List Nat)
    (n : List String) (c : Option String) (now tid : Nat) (e : String)
    (hu : u ≠ 0) (ht : t ≠ 0) (hs : s ≠ []) (hn : n ≠ []) (htid : tid ≠ 0) :
    DatabaseManager.purchase_ticket (.fail e) st u t s n c now =
      (st, (false, "Satın alma hatası: " ++ e, none)) ∧
    DatabaseManager.cancel_ticket (.fail e) st tid u now =
      (st, (false, "İptal hatası: " ++ e)) := by
  constructor
  · unfold DatabaseManager.purchase_ticket
    rw [if_neg (by simp [hu, ht, hs, hn])]
  · unfold DatabaseManager.cancel_ticket
    rw [if_neg (by simp [htid, hu])]

/-- Concrete witness for the amended C7. -/
theorem storage_error_message_structure_witness :
    DatabaseManager.purchase_ticket (.fail "timeout") demoDB 7 1 [0] ["Ali"] none 0 =
      (demoDB, (false, "Satın alma hatası: " ++ "timeout", none)) :=
  (storage_error_message_structure demoDB 7 1 [0] ["Ali"] none 0 1 "timeout"
    (by decide) (by decide) (by decide) (by decide) (by decide)).1

/-- C9: for a non-empty password the stored hash verifies, and for
non-empty stored hash and password `verify_password` succeeds exactly when
the stored hash equals `hash_password` of the password (the digest of the
external SHA-256 function, assumed non-empty on non-empty input as
`hashlib`'s 64-character hex digest always is). -/
theorem verify_hash_roundtrip (sha : String → String) (p : String)
    (hp : p ≠ "") (hsha : sha p ≠ "") :
    verify_password sha (hash_password sha p) p = true ∧
    ∀ h, h ≠ "" → (verify_password sha h p = true ↔ h = hash_password sha p) := by
  have hhp : hash_password sha p = sha p := by
    unfold hash_password
    rw [if_neg hp]
  constructor
  · unfold verify_password
    rw [hhp, if_neg (by push_neg; exact ⟨hsha, hp⟩)]
    simp [hhp]
  · intro h hh
    unfold verify_password
    rw [if_neg (by push_neg; exact ⟨hh, hp⟩), hhp]
    constructor
    · intro hbeq
      simpa using hbeq
    · intro he
      simp [he]

/-- Concrete witness for C9 with a stand-in digest function. -/
theorem verify_hash_roundtrip_witness :
    verify_password (fun _ => "digest") (hash_password (fun _ => "digest") "secret")
      "secret" = true :=
  (verify_hash_roundtrip (fun _ => "digest") "secret" (by decide) (by decide)).1

/-- C8 counterexample: the decimal money amount 0.1 is not representable
in the Python layer's `float` money type, so amounts are not exact
fixed-point decimals. -/
theorem money_decimal_not_representable :
    ¬ pythonFloatRepresentable ((1 : ℚ)/10) := tenth_not_pythonFloat

/-- C8 amended: money amounts in the Python layer pass through `float()`
and are therefore IEEE-754 binary64 values — always dyadic rationals — and
the decimal amount 0.1 is not among them, so exact decimal arithmetic is
not what the code implements. -/
theorem money_amounts_are_binary_floats :
    (∀ q : ℚ, pythonFloatRepresentable q → IsDyadicRational q) ∧
    ¬ pythonFloatRepresentable ((1 : ℚ)/10) :=
  ⟨fun _ h => pythonFloat_dyadic h, tenth_not_pythonFloat⟩

/-- Concrete witness for the amended C8: 0.5 is float-representable and
indeed dyadic. -/
theorem money_amounts_are_binary_floats_witness :
    IsDyadicRational ((1 : ℚ)/2) :=
  money_amounts_are_binary_floats.1 ((1 : ℚ)/2)
    ⟨1, -1, by norm_num, by norm_num⟩

/-- C4: the purchase route rejects — with HTTP 400, success `False`, and
no state change, before the database layer is reached — every request with
an empty seat list, mismatched seat/passenger list lengths, or more than
the configured maximum of 5 seats. -/
theorem purchase_route_shape_validation (beh : StorageBehavior) (st : DBState)
    (u t : Nat) (s : List Nat) (n : List String) (c : Option String) (now : Nat)
    (hshape : s = [] ∨ s.length ≠ n.length ∨ Config.MAX_SEATS_PER_BOOKING < s.length) :
    (purchase_ticket_route beh st "user" u t s n c now).1 = st ∧
    (purchase_ticket_route beh st "user" u t s n c now).2.status = 400 ∧
    (purchase_ticket_route beh st "user" u t s n c now).2.success = false := by
  unfold purchase_ticket_route
  split_ifs with h1 h2 h3 h4 h5 h6
  · exact absurd rfl h1
  · exact ⟨rfl, rfl, rfl⟩
  · exact ⟨rfl, rfl, rfl⟩
  · exact ⟨rfl, rfl, rfl⟩
  · exact ⟨rfl, rfl, rfl⟩
  · exact ⟨rfl, rfl, rfl⟩
  · rcases hshape with h | h | h
    · exact absurd h h3
    · exact absurd h h5
    · exact absurd h h6

/-- Concrete witness for C4: an empty seat list is rejected with 400 and
the store is untouched. -/
theorem purchase_route_shape_validation_witness :
    (purchase_ticket_route .ok demoDB "user" 7 1 [] [] none 0).1 = demoDB ∧
    (purchase_ticket_route .ok demoDB "user" 7 1 [] [] none 0).2.status = 400 :=
  ⟨(purchase_route_shape_validation .ok demoDB 7 1 [] [] none 0 (Or.inl rfl)).1,
   (purchase_route_shape_validation .ok demoDB 7 1 [] [] none 0 (Or.inl rfl)).2.1⟩

/-- C3: from any state satisfying the data-model invariants, after every
sequence of Purchase / Cancel / TopUp operations every user's balance is
still non-negative; and a purchase whose debit amount (the quoted final
price) exceeds the user's current balance fails with no state change. -/
theorem balance_never_negative (st : DBState) (hInv : DBInv st) :
    (∀ ops : List Op, ∀ u, 0 ≤ getBal (runOps st ops).balances u) ∧
    (∀ (u t : Nat) (s : List Nat) (n : List String) (c : String) (now : Nat) (f : ℚ),
      finalPriceQuote st u t s n c now = some f → getBal st.balances u < f →
      sp_PurchaseTicket st u t s n c now = (st, (false, "Yetersiz bakiye", none))) := by
  constructor
  · intro ops u
    exact getBal_nonneg (DBInv_runOps hInv ops).1 u
  · intro u t s n c now f hq hlt
    exact insufficient_balance_rejected hq hlt

/-- Concrete witness for C3: user 7's balance stays non-negative after an
attempted over-priced purchase, and that purchase (final price 100 against
balance 10) is rejected unchanged. -/
theorem balance_never_negative_witness :
    (0 ≤ getBal (runOps poorDB [Op.purchase .ok 7 1 [0] ["Ana"] none 0]).balances 7) ∧
    sp_PurchaseTicket poorDB 7 1 [0] ["Ana"] "" 0 =
      (poorDB, (false, "Yetersiz bakiye", none)) :=
  ⟨(balance_never_negative poorDB (by decide)).1 [Op.purchase .ok 7 1 [0] ["Ana"] none 0] 7,
   (balance_never_negative poorDB (by decide)).2 7 1 [0] ["Ana"] "" 0 100
     (by norm_num [finalPriceQuote, purchaseChecks, couponResult, subtotalOf, discountOf,
        lookupTrip, heldSeats, poorDB, demoTrip, Config.MAX_SEATS_PER_BOOKING, min_def])
     (by norm_num [poorDB, getBal])⟩

/-- C2: per-trip serialization (spec §5) makes any set of concurrent
`PurchaseTicket` calls equivalent to a serial run; for every serial run
from an invariant-satisfying state, the seat sets of the accepted calls on
a trip are pairwise disjoint, and their union never exceeds the trip's
total seat count — no seat is ever sold twice, however many seats the
requests ask for in total. -/
theorem no_double_booking (st : DBState) (hInv : DBInv st) (rs : List PReq)
    (t : Nat) (trip : Trip) (ht : lookupTrip st.trips t = some trip) :
    ((acceptedSeatLists (runPurchases st rs).2 t).Pairwise List.Disjoint) ∧
    ((acceptedSeatLists (runPurchases st rs).2 t).flatten.toFinset.card ≤
      trip.busTotalSeats) := by
  have hInv' := DBInv_runPurchases hInv rs
  have hheld := runPurchases_held rs st t
  have htm : (t, trip) ∈ (runPurchases st rs).1.trips := by
    rw [runPurchases_trips]
    exact lookupTrip_mem ht
  obtain ⟨hHnd, hHbound⟩ := hInv'.2.2.2.2.2 (t, trip) htm
  dsimp only at hHnd hHbound
  rw [hheld] at hHnd hHbound
  have hflat : ((acceptedSeatLists (runPurchases st rs).2 t).flatten).Nodup :=
    (List.nodup_append.1 hHnd).2.1
  constructor
  · exact (List.nodup_flatten.1 hflat).2
  · have hsub : (acceptedSeatLists (runPurchases st rs).2 t).flatten.length ≤
        (heldSeats st.tickets t ++
          (acceptedSeatLists (runPurchases st rs).2 t).flatten).length := by
      simp
    have hb := length_le_of_nodup_bounded hHnd hHbound
    rw [List.toFinset_card_of_nodup hflat]
    exact hsub.trans hb

/-- Two users and a 2-seat trip for the C2 witness. -/
def overbookDB : DBState := ⟨[(7, 150), (8, 200)], [(1, demoTrip)], [], [], [], [], 1⟩

/-- Three requests asking for 3 seats in total on the 2-seat trip, two of
them for the same seat. -/
def overbookReqs : List PReq :=
  [⟨.ok, 7, 1, [0], ["Ana"], none, 0⟩,
   ⟨.ok, 8, 1, [0], ["Bob"], none, 0⟩,
   ⟨.ok, 8, 1, [1], ["Bob"], none, 0⟩]

/-- Concrete witness for C2 on the overbooked scenario. -/
theorem no_double_booking_witness :
    (acceptedSeatLists (runPurchases overbookDB overbookReqs).2 1).Pairwise List.Disjoint ∧
    ((acceptedSeatLists (runPurchases overbookDB overbookReqs).2 1).flatten.toFinset.card ≤
      demoTrip.busTotalSeats) :=
  no_double_booking overbookDB (by decide) overbookReqs 1 demoTrip (by decide)

/-- C5: if a purchase succeeds and the new ticket is then successfully
cancelled, the refund is exactly the ticket's `FinalPrice`, the user's
balance returns to its pre-purchase value, and the held seats of every
trip return to their pre-purchase state — in particular the purchased
seats are free again for a new purchase. -/
theorem cancel_refund_roundtrip {st st1 st2 : DBState} {u t : Nat} {s : List Nat}
    {n : List String} {c : Option String} {now now2 tid : Nat} {msg msg2 : String}
    (hInv : DBInv st)
    (h1 : DatabaseManager.purchase_ticket .ok st u t s n c now = (st1, (true, msg, some tid)))
    (h2 : DatabaseManager.cancel_ticket .ok st1 tid u now2 = (st2, (true, msg2))) :
    getBal st2.balances u = getBal st.balances u ∧
    (∀ tk, lookupTicket st1.tickets tid = some tk →
      getBal st2.balances u = getBal st1.balances u + tk.finalPrice) ∧
    (∀ t', heldSeats st2.tickets t' = heldSeats st.tickets t') ∧
    (∀ x ∈ s, x ∉ heldSeats st2.tickets t) := by
  have hsp1 := purchase_wrapper_success h1
  obtain ⟨trip, sub, disc, fin, hc, hfin, hotid, hts1, hbal1, hnext1, htrips1⟩ :=
    sp_purchase_success hsp1
  have htid : tid = st.nextTicketId := Option.some.inj hotid
  obtain ⟨-, -, -, -, hnotheld, -, -⟩ := purchaseChecks_ok_facts hc
  have hsp2 := cancel_wrapper_success h2
  obtain ⟨tk, hk, -, -, hts2, hbal2, -, -⟩ := sp_cancel_success hsp2
  have hlt : ∀ p ∈ st.tickets, p.1 < tid := by
    rw [htid]
    exact hInv.2.2.1
  have hnone : lookupTicket st.tickets tid = none := lookupTicket_none_of_lt hlt
  have hk0 : lookupTicket st1.tickets tid =
      some ⟨u, t, s, n, sub, disc, fin, TicketStatus.active⟩ := by
    rw [hts1, lookupTicket_append_of_none hnone]
    simp [lookupTicket, htid]
  have htk : tk = ⟨u, t, s, n, sub, disc, fin, TicketStatus.active⟩ := by
    rw [hk] at hk0
    exact Option.some.inj hk0
  have hb1 : getBal st1.balances u = getBal st.balances u - fin := by
    rw [hbal1, getBal_setBal_self]
  have hb2 : getBal st2.balances u = getBal st1.balances u + tk.finalPrice := by
    rw [hbal2, getBal_setBal_self]
  have hnomatch : setTicketStatus st.tickets tid TicketStatus.cancelled = st.tickets :=
    setTicketStatus_of_not_mem (fun p hp => Nat.ne_of_lt (hlt p hp))
  have hts2' : st2.tickets = st.tickets ++
      [(st.nextTicketId, ⟨u, t, s, n, sub, disc, fin, TicketStatus.cancelled⟩)] := by
    rw [hts2, hts1, setTicketStatus_append, hnomatch]
    simp [setTicketStatus, htid]
  have hheld2 : ∀ t', heldSeats st2.tickets t' = heldSeats st.tickets t' := by
    intro t'
    rw [hts2', heldSeats_append, heldSeats_single]
    simp
  refine ⟨?_, ?_, hheld2, ?_⟩
  · rw [hb2, hb1, htk]
    dsimp only
    ring
  · intro tk' hk'
    rw [hk0] at hk'
    have htk' := Option.some.inj hk'
    rw [hb2, htk, htk']
  · intro x hx
    rw [hheld2 t]
    exact hnotheld x hx

/-- Concrete witness for C5: buying seat 0 of the demo trip for 100 and
cancelling immediately restores user 7's balance to 150 and frees the
seat. -/
theorem cancel_refund_roundtrip_witness :
    getBal demoDB2.balances 7 = getBal demoDB.balances 7 ∧
    heldSeats demoDB2.tickets 1 = heldSeats demoDB.tickets 1 :=
  have h1 : DatabaseManager.purchase_ticket .ok demoDB 7 1 [0] ["Ana"] none 0 =
      (demoDB1, (true, "Bilet satın alındı", some 1)) := by
    norm_num [DatabaseManager.purchase_ticket, sp_PurchaseTicket, purchaseChecks,
      couponResult, subtotalOf, discountOf, commitPurchase, lookupTrip, heldSeats,
      getBal, setBal, demoDB, demoDB1, demoTrip, Config.MAX_SEATS_PER_BOOKING, min_def]
  have h2 : DatabaseManager.cancel_ticket .ok demoDB1 1 7 0 =
      (demoDB2, (true, "Bilet iptal edildi")) := by
    norm_num [DatabaseManager.cancel_ticket, sp_CancelTicket, lookupTicket, lookupTrip,
      setTicketStatus, getBal, setBal, demoDB1, demoDB2, demoTrip,
      Config.TICKET_CANCELLATION_HOURS_BEFORE]
  ⟨(cancel_refund_roundtrip (show DBInv demoDB by decide) h1 h2).1,
   (cancel_refund_roundtrip (show DBInv demoDB by decide) h1 h2).2.2.1 1⟩
